import Mathlib

/-!
Verification of the order-assembly, coupon-evaluation and payment-confirmation
core of the hnh_fix e-commerce backend.

The Python source is shallowly embedded:
* SQLAlchemy rows become Lean structures; `Numeric(10, 2)` money columns and
  Python `Decimal` arithmetic are embedded as exact rationals (ℚ);
  `DateTime` values become integers (epoch instants) ordered as usual.
* Nullable columns and `Optional` pydantic fields become `Option`.
* Python truthiness tests on nullable numerics (`if coupon.usage_limit:`)
  are embedded as "present and nonzero"; on datetimes as presence
  (every `datetime` object is truthy); on strings as "present and nonempty".
* Database sessions become an explicit record of table contents; fallible
  persistence steps are driven by an explicit failure oracle.
-/

namespace HnhFix

/-- Truthiness of a nullable integer column (Python: `None` and `0` falsy). -/
def truthyInt : Option ℤ → Bool
  | none => false
  | some n => n != 0

/-- Truthiness of a nullable Decimal column (Python: `None` and `Decimal(0)` falsy). -/
def truthyQ : Option ℚ → Bool
  | none => false
  | some q => q != 0

/-- Truthiness of a nullable string (Python: `None` and the empty string falsy). -/
def truthyStr : Option String → Bool
  | none => false
  | some s => s != ""

/-- Truthiness of a nullable integer id (Python: `None` and `0` falsy). -/
def truthyNat : Option ℕ → Bool
  | none => false
  | some n => n != 0

/-- Coupon row, from `app/models/order.py` (class Coupon). -/
structure Coupon where
  code : String
  type : String
  value : ℚ
  minimum_amount : Option ℚ
  maximum_discount : Option ℚ
  usage_limit : Option ℤ
  usage_count : ℤ
  is_active : Bool
  starts_at : Option ℤ
  expires_at : Option ℤ
  deriving Repr, DecidableEq

/-- Result schema of coupon validation, from `app/schemas/order.py`
(class CouponValidation).  Every code path supplies a message, so the
message field is embedded as a plain string. -/
structure CouponValidation where
  valid : Bool
  discount_amount : Option ℚ
  message : String
  deriving Repr, DecidableEq

/-- The coupon evaluator, from `app/api/orders.py` (validate_coupon).
The database lookup `select(Coupon).where(Coupon.code == coupon_code)`
is passed in as `lookup`; `now` is the `datetime.utcnow()` instant. -/
def validate_coupon (lookup : Option Coupon) (cart_total : ℚ) (now : ℤ) :
    CouponValidation :=
  match lookup with
  | none => ⟨false, none, "Coupon not found"⟩
  | some coupon =>
    if !coupon.is_active then
      ⟨false, none, "Coupon is not active"⟩
    else if coupon.starts_at.any (fun s => decide (now < s)) then
      ⟨false, none, "Coupon is not yet active"⟩
    else if coupon.expires_at.any (fun e => decide (now > e)) then
      ⟨false, none, "Coupon has expired"⟩
    else if coupon.usage_limit.any
        (fun l => l != 0 && decide (coupon.usage_count ≥ l)) then
      ⟨false, none, "Coupon usage limit reached"⟩
    else if coupon.minimum_amount.any
        (fun m => m != 0 && decide (cart_total < m)) then
      ⟨false, none,
        "Minimum order amount of $" ++ toString (coupon.minimum_amount.getD 0)
          ++ " required"⟩
    else if coupon.type == "percentage" then
      let discount := cart_total * coupon.value / 100
      let discount :=
        match coupon.maximum_discount with
        | some mx => if mx != 0 then min discount mx else discount
        | none => discount
      ⟨true, some discount, "Coupon is valid"⟩
    else if coupon.type == "fixed_amount" then
      ⟨true, some (min coupon.value cart_total), "Coupon is valid"⟩
    else if coupon.type == "free_shipping" then
      ⟨true, some 0, "Coupon is valid"⟩
    else
      ⟨false, none, "Invalid coupon type"⟩

/-- Address row, from `app/models/user.py` (class Address); the fields
`create_order` reads (the id, the owner, and the ten snapshotted fields). -/
structure Address where
  id : ℕ
  user_id : ℕ
  first_name : Option String
  last_name : Option String
  company : Option String
  address_line1 : String
  address_line2 : Option String
  city : String
  province : String
  postal_code : String
  country : String
  phone : Option String
  deriving Repr, DecidableEq, Inhabited

/-- The ten address fields an Order stores for each of shipping and billing
(`shipping_first_name`, ..., `billing_phone` in class Order). -/
structure AddressSnapshot where
  first_name : Option String
  last_name : Option String
  company : Option String
  address_line1 : String
  address_line2 : Option String
  city : String
  province : String
  postal_code : String
  country : String
  phone : Option String
  deriving Repr, DecidableEq, Inhabited

/-- The field-by-field copy `create_order` performs from a resolved Address
into the Order row. -/
def Address.snapshot (a : Address) : AddressSnapshot :=
  ⟨a.first_name, a.last_name, a.company, a.address_line1, a.address_line2,
   a.city, a.province, a.postal_code, a.country, a.phone⟩

/-- Product row, from `app/models/product.py` (class Product); the fields
`create_order` reads through `cart_item.product`. -/
structure Product where
  id : ℕ
  name : String
  sku : String
  deriving Repr, DecidableEq, Inhabited

/-- Product variant row, from `app/models/product.py` (class ProductVariant);
the fields `create_order` reads through `cart_item.variant`. -/
structure ProductVariant where
  id : ℕ
  name : String
  sku : String
  deriving Repr, DecidableEq, Inhabited

/-- Cart line, from `app/models/order.py` (class CartItem), with the
`product` and `variant` relationships resolved (selectinload). -/
structure CartItem where
  id : ℕ
  user_id : ℕ
  product_id : ℕ
  variant_id : Option ℕ
  quantity : ℕ
  price : ℚ
  product : Product
  variant : Option ProductVariant
  deriving Repr, DecidableEq, Inhabited

/-- Order row, from `app/models/order.py` (class Order).  The twenty address
columns are grouped into the two snapshots. -/
structure Order where
  id : ℕ
  user_id : ℕ
  order_number : String
  status : String
  payment_status : String
  subtotal : ℚ
  tax_amount : ℚ
  shipping_cost : ℚ
  discount_amount : ℚ
  total_amount : ℚ
  shipping : AddressSnapshot
  billing : AddressSnapshot
  notes : Option String
  deriving Repr, DecidableEq, Inhabited

/-- Order line, from `app/models/order.py` (class OrderItem). -/
structure OrderItem where
  order_id : ℕ
  product_id : ℕ
  variant_id : Option ℕ
  product_name : String
  variant_name : Option String
  sku : String
  quantity : ℕ
  unit_price : ℚ
  total_price : ℚ
  deriving Repr, DecidableEq, Inhabited

/-- Payment row, from `app/models/order.py` (class Payment).  The JSON
`gateway_response` column is embedded as its two stored entries
(`poll_url` and `instructions`); `failure_reason` is the plain instance
attribute the paynow handlers assign (it is not a declared column). -/
structure Payment where
  id : ℕ
  order_id : ℕ
  payment_method : String
  transaction_id : Option String
  amount : ℚ
  currency : String
  status : String
  poll_url : Option String
  instructions : Option String
  processed_at : Option ℤ
  failure_reason : Option String
  deriving Repr, DecidableEq, Inhabited

/-- The relational store the handlers read and write, as one record of
table contents.  `next_order_id` and `next_payment_id` model the
autoincrement primary keys. -/
structure DB where
  cart_items : List CartItem
  addresses : List Address
  orders : List Order
  order_items : List OrderItem
  coupons : List Coupon
  payments : List Payment
  next_order_id : ℕ
  next_payment_id : ℕ
  deriving Repr, DecidableEq, Inhabited

/-- Request schema, from `app/schemas/order.py` (class OrderCreate). -/
structure OrderCreate where
  shipping_address_id : ℕ
  billing_address_id : Option ℕ
  payment_method : String
  notes : Option String
  coupon_code : Option String
  deriving Repr, DecidableEq, Inhabited

/-- Calendar date of `datetime.utcnow()`, for the strftime date stamp. -/
structure UtcDate where
  year : ℕ
  month : ℕ
  day : ℕ
  deriving Repr, DecidableEq, Inhabited

/-- The ASCII digit for the last decimal digit of `n`. -/
def digitChar (n : ℕ) : Char := Char.ofNat (48 + n % 10)

/-- Two-digit zero-padded decimal rendering (strftime `%m`, `%d`). -/
def pad2 (n : ℕ) : List Char := [digitChar (n / 10), digitChar n]

/-- Four-digit zero-padded decimal rendering (strftime `%Y` for utcnow,
whose year is between 1 and 9999). -/
def pad4 (n : ℕ) : List Char :=
  [digitChar (n / 1000), digitChar (n / 100), digitChar (n / 10), digitChar n]

/-- Rendering of `datetime.utcnow().strftime` with the year, month, day
format codes, as used for the order-number date stamp. -/
def dateStampChars (d : UtcDate) : List Char :=
  pad4 d.year ++ pad2 d.month ++ pad2 d.day

/-- Lowercase hex digit for one uuid nibble. -/
def hexChar (n : Fin 16) : Char :=
  if n.val < 10 then Char.ofNat (48 + n.val) else Char.ofNat (87 + n.val)

/-- Model of `str(uuid.uuid4())[:8]`: the first eight characters of the
canonical uuid rendering are the first eight hex nibbles in lowercase
(the first hyphen sits at index 8). -/
def uuidPrefix8 (nib : List (Fin 16)) : List Char :=
  (nib.take 8).map hexChar

/-- The f-string
`ORD-(utcnow strftime)-(str(uuid4())[:8].upper())` from `create_order`. -/
def orderNumber (today : UtcDate) (nib : List (Fin 16)) : String :=
  ⟨"ORD-".toList ++ dateStampChars today ++ "-".toList
    ++ (uuidPrefix8 nib).map Char.toUpper⟩

/-- Which of the fallible persistence steps of `create_order` succeed:
the `db.flush()` INSERT, the `db.commit()`, and the post-commit reload
SELECT. -/
structure PersistOracle where
  flushOk : Bool
  commitOk : Bool
  reloadOk : Bool
  deriving Repr, DecidableEq, Inhabited

/-- The error responses `create_order` can raise: the four domain
HTTPExceptions and the generic 500 produced by the rollback handler. -/
inductive CreateOrderError where
  | cartEmpty
  | shippingAddressNotFound
  | billingAddressNotFound
  | invalidCoupon (message : String)
  | internalError
  deriving Repr, DecidableEq, Inhabited

/-- Outcome of one `create_order` call together with the database contents
it leaves behind. -/
inductive CreateOrderResult where
  | ok (db : DB) (order : Order)
  | err (db : DB) (e : CreateOrderError)
  deriving Repr, DecidableEq, Inhabited

/-- The OrderItem `create_order` builds from one cart line: variant name
and SKU are read only when both `variant_id` and the loaded `variant` are
truthy, and the SKU falls back to the product SKU when the variant SKU is
falsy (None or empty). -/
def mkOrderItem (order_id : ℕ) (c : CartItem) : OrderItem :=
  let useVariant := truthyNat c.variant_id && c.variant.isSome
  let variant_name : Option String :=
    if useVariant then c.variant.map (fun v => v.name) else none
  let variant_sku : Option String :=
    if useVariant then c.variant.map (fun v => v.sku) else none
  let sku := if truthyStr variant_sku then variant_sku.getD "" else c.product.sku
  { order_id := order_id, product_id := c.product_id, variant_id := c.variant_id,
    product_name := c.product.name, variant_name := variant_name, sku := sku,
    quantity := c.quantity, unit_price := c.price,
    total_price := c.price * (c.quantity : ℚ) }

/-- Order assembly, from `app/api/orders.py` (create_order).  The current
user is `uid`; `now` and `today` are the utcnow instant and date; `nib`
are the nibbles of the fresh uuid4; `oracle` decides which persistence
steps succeed.  Every error path reports the database contents left
behind: the domain errors raise before anything is written, flush and
commit failures roll back, and a reload failure surfaces the generic 500
after the commit already happened. -/
def create_order (σ : DB) (uid : ℕ) (req : OrderCreate) (now : ℤ)
    (today : UtcDate) (nib : List (Fin 16)) (oracle : PersistOracle) :
    CreateOrderResult :=
  let cart_items := σ.cart_items.filter (fun c => c.user_id == uid)
  if cart_items.isEmpty then .err σ .cartEmpty
  else
    match σ.addresses.find?
        (fun a => a.id == req.shipping_address_id && a.user_id == uid) with
    | none => .err σ .shippingAddressNotFound
    | some shipping_address =>
      let billingLookup : Option Address :=
        if truthyNat req.billing_address_id then
          σ.addresses.find?
            (fun a => some a.id == req.billing_address_id && a.user_id == uid)
        else some shipping_address
      match billingLookup with
      | none => .err σ .billingAddressNotFound
      | some billing_address =>
        let subtotal := (cart_items.map (fun c => c.price * (c.quantity : ℚ))).sum
        let tax_amount : ℚ := 0
        let shipping_cost : ℚ := 0
        let couponRes : Except String ℚ :=
          if truthyStr req.coupon_code then
            let v := validate_coupon
              (σ.coupons.find? (fun c => some c.code == req.coupon_code))
              subtotal now
            if v.valid then .ok (v.discount_amount.getD 0) else .error v.message
          else .ok 0
        match couponRes with
        | .error msg => .err σ (.invalidCoupon msg)
        | .ok discount_amount =>
          let total_amount := subtotal + tax_amount + shipping_cost - discount_amount
          let number := orderNumber today nib
          let order : Order :=
            { id := σ.next_order_id, user_id := uid, order_number := number,
              status := "pending", payment_status := "pending",
              subtotal := subtotal, tax_amount := tax_amount,
              shipping_cost := shipping_cost, discount_amount := discount_amount,
              total_amount := total_amount,
              shipping := shipping_address.snapshot,
              billing := billing_address.snapshot, notes := req.notes }
          if !oracle.flushOk || σ.orders.any (fun o => o.order_number == number) then
            .err σ .internalError
          else
            let order_items := cart_items.map (mkOrderItem order.id)
            let coupons :=
              if truthyStr req.coupon_code then
                σ.coupons.map (fun c =>
                  if some c.code == req.coupon_code then
                    { c with usage_count := c.usage_count + 1 }
                  else c)
              else σ.coupons
            let σc : DB :=
              { σ with
                orders := σ.orders ++ [order],
                order_items := σ.order_items ++ order_items,
                coupons := coupons,
                cart_items := σ.cart_items.filter (fun c => !(c.user_id == uid)),
                next_order_id := σ.next_order_id + 1 }
            if !oracle.commitOk then .err σ .internalError
            else if !oracle.reloadOk then .err σc .internalError
            else .ok σc order

/-- Lowercasing a gateway status string (the Python str.lower call on the
ASCII statuses the gateway reports). -/
def strLower (s : String) : String := ⟨s.data.map Char.toLower⟩

/-- One payment together with its owning order, the rows the paynow status
loops read and mutate. -/
structure PayState where
  payment : Payment
  order : Order
  deriving Repr, DecidableEq, Inhabited

/-- One iteration of talking to the gateway: either
`paynow.check_transaction_status` raised, or it returned a response with a
`paid` flag and a `status` string. -/
inductive PollOutcome where
  | raised
  | response (paid : Bool) (stat : String)
  deriving Repr, DecidableEq, Inhabited

/-- The body of one polling iteration shared by the paynow status loops:
a paid response completes the payment and confirms the order, a cancelled
response fails both, anything else (including a raised exception, which is
logged and swallowed) changes nothing.  The returned flag tells whether
the loop returns (a terminal state was reached). -/
def pollStep (now : ℤ) (s : PayState) (r : PollOutcome) : PayState × Bool :=
  match r with
  | .raised => (s, false)
  | .response paid stat =>
    if paid then
      ({ payment := { s.payment with status := "completed", processed_at := some now },
         order := { s.order with payment_status := "paid", status := "confirmed" } },
       true)
    else if strLower stat == "cancelled" then
      let failedPayment :=
        { s.payment with
            status := "failed"
            failure_reason := some "User cancelled or insufficient funds" }
      ({ payment := failedPayment,
         order := { s.order with payment_status := "failed" } },
       true)
    else (s, false)

/-- The timeout finaliser of `check_payment_status_background`
(`app/api/paynow.py`): after the attempt budget is exhausted the payment
is re-read and marked `timeout` only when it is still `pending`; the
order row is not touched. -/
def finalizeTimeout (s : PayState) : PayState :=
  if s.payment.status == "pending" then
    { s with payment := { s.payment with status := "timeout" } }
  else s

/-- The background status checker, from `app/api/paynow.py`
(check_payment_status_background): one poll outcome per attempt of the
bounded budget, then the timeout finaliser. -/
def check_payment_status_background (now : ℤ) (s : PayState) :
    List PollOutcome → PayState
  | [] => finalizeTimeout s
  | r :: rest =>
    let (s', terminal) := pollStep now s r
    if terminal then s'
    else check_payment_status_background now s' rest

/-- The polling tail of `complete_payment_sync` (`app/api/paynow.py`,
steps 5 and 6): the same per-iteration body, but on budget exhaustion both
the payment status and the order payment status are set to `timeout`
unconditionally. -/
def complete_payment_sync_poll (now : ℤ) (s : PayState) :
    List PollOutcome → PayState
  | [] =>
    { payment := { s.payment with status := "timeout" },
      order := { s.order with payment_status := "timeout" } }
  | r :: rest =>
    let (s', terminal) := pollStep now s r
    if terminal then s'
    else complete_payment_sync_poll now s' rest

/-- Request schema, from `app/api/paynow.py` (class PaynowPaymentRequest). -/
structure PaynowPaymentRequest where
  order_id : ℕ
  payment_method : String
  phone_number : String
  currency : String
  deriving Repr, DecidableEq, Inhabited

/-- What the gateway does when `initiate_payment` reaches it: the
`paynow.send_mobile` call raises, or returns a response with a success
flag, an error text, a poll url and optional instructions. -/
inductive GatewayBehavior where
  | raises
  | responds (success : Bool) (error : String) (poll_url : String)
      (instructions : Option String)
  deriving Repr, DecidableEq, Inhabited

/-- Default of the USD_TO_ZWL_RATE configuration entry. -/
def conversion_rate : ℚ := 35

/-- Currency conversion helper, from `app/api/paynow.py` (convert_amount). -/
def convert_amount (amount : ℚ) (from_currency to_currency : String) : ℚ :=
  if from_currency == to_currency then amount
  else if from_currency == "USD" && to_currency == "ZWL" then
    amount * conversion_rate
  else if from_currency == "ZWL" && to_currency == "USD" then
    amount / conversion_rate
  else amount

/-- Outcome of `initiate_payment`: an HTTPException with a detail string,
or success.  Either way it records the database contents left behind and
whether the gateway was reached before the outcome was decided. -/
inductive InitiateResult where
  | err (db : DB) (contactedGateway : Bool) (detail : String)
  | ok (db : DB) (poll_url : String) (reference : String)
  deriving Repr, DecidableEq, Inhabited

/-- Database contents an initiation outcome leaves behind. -/
def InitiateResult.db : InitiateResult → DB
  | .err σ _ _ => σ
  | .ok σ _ _ => σ

/-- Whether the gateway was contacted before the outcome was decided. -/
def InitiateResult.contacted : InitiateResult → Bool
  | .err _ g _ => g
  | .ok _ _ _ => true

/-- Whether the call was rejected. -/
def InitiateResult.isErr : InitiateResult → Bool
  | .err _ _ _ => true
  | .ok _ _ _ => false

/-- Payment initiation, from `app/api/paynow.py` (initiate_payment):
validate method, currency, order existence and ownership, not already
paid, and non-empty items; then contact the gateway; on gateway success
create or update the single Payment row of the order, store the poll
handle, mark the order payment-pending and commit. -/
def initiate_payment (σ : DB) (uid : ℕ) (req : PaynowPaymentRequest)
    (gw : GatewayBehavior) : InitiateResult :=
  if !(req.payment_method == "ecocash" || req.payment_method == "onemoney") then
    .err σ false "Only Ecocash and OneMoney payments are supported"
  else if !(req.currency == "USD" || req.currency == "ZWL") then
    .err σ false "Currency must be USD or ZWL"
  else
    match σ.orders.find? (fun o => o.id == req.order_id && o.user_id == uid) with
    | none => .err σ false "Order not found"
    | some order =>
      if order.payment_status == "paid" then
        .err σ false "Order is already paid"
      else if (σ.order_items.filter (fun i => i.order_id == order.id)).isEmpty then
        .err σ false "Order has no items"
      else
        let total_amount :=
          if req.currency == "ZWL" then convert_amount order.total_amount "USD" "ZWL"
          else order.total_amount
        let reference := "Order#" ++ order.order_number
        match gw with
        | .raises => .err σ true "Payment service error"
        | .responds success error poll_url instructions =>
          if !success then .err σ true error
          else
            let payments :=
              match σ.payments.find? (fun p => p.order_id == order.id) with
              | none =>
                σ.payments ++
                  [{ id := σ.next_payment_id, order_id := order.id,
                     payment_method := req.payment_method,
                     transaction_id := some reference, amount := total_amount,
                     currency := req.currency, status := "pending",
                     poll_url := some poll_url, instructions := instructions,
                     processed_at := none, failure_reason := none }]
              | some _ =>
                σ.payments.map (fun p =>
                  if p.order_id == order.id then
                    { p with
                        payment_method := req.payment_method
                        amount := total_amount
                        currency := req.currency
                        status := "pending"
                        transaction_id := some reference
                        poll_url := some poll_url
                        instructions := instructions }
                  else p)
            let orders := σ.orders.map (fun o =>
              if o.id == order.id then { o with payment_status := "pending" } else o)
            .ok
              { σ with
                  payments := payments
                  orders := orders
                  next_payment_id := σ.next_payment_id + 1 }
              poll_url reference

/-! ## Helper lemmas -/

theorem data_append (s t : String) : (s ++ t).data = s.data ++ t.data := rfl

/-- The minimum-amount message starts with M, so it never collides with the
other evaluator messages, whatever amount is interpolated into it. -/
theorem minimum_message_ne (s t : String) (h : t.data.head? ≠ some 'M') :
    "Minimum order amount of $" ++ s ++ " required" ≠ t :=
  fun he => h (by rw [← he]; rfl)

/-! ## Coupon evaluator claims -/

/-- A coupon whose optional fields are all set to zero, exercising the
truthiness corner of the evaluator. -/
def c5cex : Coupon :=
  ⟨"LIM0", "fixed_amount", 10, none, none, some 0, 5, true, none, none⟩

/-- C5 counterexample: this coupon has usage_limit set (to 0) and
usage_count (5) at least usage_limit, so the claim says it is rejected
with the usage message; the evaluator accepts it. -/
theorem coupon_usage_zero_limit_cex :
    c5cex.usage_limit = some 0 ∧ (0:ℤ) ≤ c5cex.usage_count ∧
    validate_coupon (some c5cex) 100 0 =
      ⟨true, some 10, "Coupon is valid"⟩ := by decide

/-- C5 (amended): for every coupon whose usage_limit is set to a nonzero
value and which passes the earlier checks (active, date window), the
evaluator rejects it with the usage message exactly when
usage_count ≥ usage_limit; equality counts as exhausted. -/
theorem coupon_usage_limit_boundary (c : Coupon) (ct : ℚ) (now : ℤ) (l : ℤ)
    (hact : c.is_active = true)
    (hstart : c.starts_at.any (fun s => decide (now < s)) = false)
    (hexp : c.expires_at.any (fun e => decide (now > e)) = false)
    (hl : c.usage_limit = some l) (hl0 : l ≠ 0) :
    (validate_coupon (some c) ct now).message = "Coupon usage limit reached"
      ↔ l ≤ c.usage_count := by
  obtain ⟨code, ty, value, minA, maxD, ulim, ucount, act, sAt, eAt⟩ := c
  simp only at hact hstart hexp hl
  subst hact hl
  have hmm : ("Minimum order amount of $" ++ toString (minA.getD 0) ++ " required")
      ≠ "Coupon usage limit reached" := minimum_message_ne _ _ (by decide)
  by_cases hcnt : l ≤ ucount
  · simp [validate_coupon, hstart, hexp, hl0, hcnt]
  · simp only [validate_coupon, Bool.not_true, if_false, hstart, hexp,
      Option.any_some]
    refine iff_of_false ?_ hcnt
    repeat' split
    all_goals first
      | exact hmm
      | (simp_all; try omega)

/-- A coupon at its usage limit, witnessing the exhaustion boundary. -/
def c5w : Coupon :=
  ⟨"LIM", "fixed_amount", 10, none, none, some 3, 3, true, none, none⟩

/-- Witness for the amended C5 at a concrete coupon whose usage_count
equals its (nonzero) usage_limit. -/
theorem coupon_usage_limit_boundary_witness :
    (validate_coupon (some c5w) 100 0).message = "Coupon usage limit reached"
      ↔ (3:ℤ) ≤ c5w.usage_count :=
  coupon_usage_limit_boundary c5w 100 0 3 rfl rfl rfl rfl (by decide)

/-- C6: the validity window is inclusive at both ends.  Evaluating exactly
at expires_at (resp. starts_at) behaves as if no expiry (resp. no start)
were configured, and only a strictly later (resp. strictly earlier)
instant draws the expiry (resp. not-yet-active) rejection. -/
theorem coupon_window_boundaries (c : Coupon) (ct : ℚ) (now : ℤ) :
    (c.expires_at = some now →
      validate_coupon (some c) ct now =
        validate_coupon (some { c with expires_at := none }) ct now) ∧
    (c.starts_at = some now →
      validate_coupon (some c) ct now =
        validate_coupon (some { c with starts_at := none }) ct now) ∧
    (c.is_active = true →
      c.starts_at.any (fun s => decide (now < s)) = false →
      ∀ e, c.expires_at = some e → e < now →
      validate_coupon (some c) ct now = ⟨false, none, "Coupon has expired"⟩) ∧
    (c.is_active = true → ∀ s, c.starts_at = some s → now < s →
      validate_coupon (some c) ct now =
        ⟨false, none, "Coupon is not yet active"⟩) := by
  obtain ⟨code, ty, value, minA, maxD, ulim, ucount, act, sAt, eAt⟩ := c
  refine ⟨?_, ?_, ?_, ?_⟩
  · intro h
    simp only at h
    subst h
    simp [validate_coupon]
  · intro h
    simp only at h
    subst h
    simp [validate_coupon]
  · intro hact hstart e he hlt
    simp only at hact hstart he
    subst hact he
    simp [validate_coupon, hstart, hlt]
  · intro hact s hs hlt
    simp only at hact hs
    subst hact hs
    simp [validate_coupon, hlt]

/-- A coupon with a validity window, for the boundary witnesses. -/
def c6w : Coupon :=
  ⟨"WIN", "fixed_amount", 5, none, none, none, 0, true, some 100, some 200⟩

/-- Witness for C6 at a concrete windowed coupon: evaluation at the very
expiry instant and at the very start instant ignores the bound, while
instants strictly outside the window are rejected. -/
theorem coupon_window_boundaries_witness :
    (validate_coupon (some c6w) 10 200 =
      validate_coupon (some { c6w with expires_at := none }) 10 200) ∧
    (validate_coupon (some c6w) 10 100 =
      validate_coupon (some { c6w with starts_at := none }) 10 100) ∧
    validate_coupon (some c6w) 10 300 =
      ⟨false, none, "Coupon has expired"⟩ ∧
    validate_coupon (some c6w) 10 50 =
      ⟨false, none, "Coupon is not yet active"⟩ :=
  ⟨(coupon_window_boundaries c6w 10 200).1 rfl,
   (coupon_window_boundaries c6w 10 100).2.1 rfl,
   (coupon_window_boundaries c6w 10 300).2.2.1 rfl (by decide) 200 rfl (by decide),
   (coupon_window_boundaries c6w 10 50).2.2.2 rfl 100 rfl (by decide)⟩

/-- C10: a zero in any of the three optional numeric fields is treated
exactly as if the field were unset, because the evaluator tests Python
truthiness: usage_limit 0 imposes no cap, minimum_amount 0 no minimum,
maximum_discount 0 no clamp on a percentage discount. -/
theorem coupon_zero_fields_as_unset (c : Coupon) (ct : ℚ) (now : ℤ) :
    (c.usage_limit = some 0 →
      validate_coupon (some c) ct now =
        validate_coupon (some { c with usage_limit := none }) ct now) ∧
    (c.minimum_amount = some 0 →
      validate_coupon (some c) ct now =
        validate_coupon (some { c with minimum_amount := none }) ct now) ∧
    (c.maximum_discount = some 0 →
      validate_coupon (some c) ct now =
        validate_coupon (some { c with maximum_discount := none }) ct now) := by
  obtain ⟨code, ty, value, minA, maxD, ulim, ucount, act, sAt, eAt⟩ := c
  refine ⟨?_, ?_, ?_⟩ <;> intro h <;> simp only at h <;> subst h <;>
    simp [validate_coupon]

/-- A coupon with every optional numeric field set to zero. -/
def c10w : Coupon :=
  ⟨"ZERO", "percentage", 10, some 0, some 0, some 0, 99, true, none, none⟩

/-- Witness for C10 at a concrete coupon whose three optional numeric
fields are all zero. -/
theorem coupon_zero_fields_as_unset_witness :
    (validate_coupon (some c10w) 40 0 =
      validate_coupon (some { c10w with usage_limit := none }) 40 0) ∧
    (validate_coupon (some c10w) 40 0 =
      validate_coupon (some { c10w with minimum_amount := none }) 40 0) ∧
    (validate_coupon (some c10w) 40 0 =
      validate_coupon (some { c10w with maximum_discount := none }) 40 0) :=
  ⟨(coupon_zero_fields_as_unset c10w 40 0).1 rfl,
   (coupon_zero_fields_as_unset c10w 40 0).2.1 rfl,
   (coupon_zero_fields_as_unset c10w 40 0).2.2 rfl⟩

/-- A percentage coupon whose maximum_discount is set to zero. -/
def c3cex : Coupon :=
  ⟨"PCT", "percentage", 50, none, some 0, none, 0, true, none, none⟩

/-- C3 counterexample: this valid percentage coupon has
maximum_discount set (to 0), so the claim says the discount is clamped
to 0; the evaluator returns the unclamped discount 50. -/
theorem coupon_discount_zero_cap_cex :
    c3cex.maximum_discount = some 0 ∧
    validate_coupon (some c3cex) 100 0 =
      ⟨true, some 50, "Coupon is valid"⟩ ∧
    ¬ ((50:ℚ) ≤ 0) := by
  refine ⟨rfl, ?_, by norm_num⟩
  simp [c3cex, validate_coupon]

/-- C3 (amended): for every coupon that passes all validity checks, a
percentage coupon yields cart_subtotal * value / 100, clamped to
maximum_discount only when that field is set to a nonzero value; a
fixed_amount coupon yields min(value, cart_subtotal), never exceeding the
subtotal; any type other than the three known ones is rejected as an
invalid coupon type. -/
theorem coupon_discount_by_type (c : Coupon) (ct : ℚ) (now : ℤ)
    (hact : c.is_active = true)
    (hstart : c.starts_at.any (fun s => decide (now < s)) = false)
    (hexp : c.expires_at.any (fun e => decide (now > e)) = false)
    (husage : c.usage_limit.any
      (fun l => l != 0 && decide (c.usage_count ≥ l)) = false)
    (hmin : c.minimum_amount.any
      (fun m => m != 0 && decide (ct < m)) = false) :
    (c.type = "percentage" →
      ((c.maximum_discount = none ∨ c.maximum_discount = some 0) →
        validate_coupon (some c) ct now =
          ⟨true, some (ct * c.value / 100), "Coupon is valid"⟩) ∧
      (∀ mx, c.maximum_discount = some mx → mx ≠ 0 →
        validate_coupon (some c) ct now =
          ⟨true, some (min (ct * c.value / 100) mx), "Coupon is valid"⟩)) ∧
    (c.type = "fixed_amount" →
      validate_coupon (some c) ct now =
        ⟨true, some (min c.value ct), "Coupon is valid"⟩ ∧
      (validate_coupon (some c) ct now).discount_amount.getD 0 ≤ ct) ∧
    (c.type ≠ "percentage" → c.type ≠ "fixed_amount" →
      c.type ≠ "free_shipping" →
      validate_coupon (some c) ct now =
        ⟨false, none, "Invalid coupon type"⟩) := by
  obtain ⟨code, ty, value, minA, maxD, ulim, ucount, act, sAt, eAt⟩ := c
  simp only at hact hstart hexp husage hmin
  subst hact
  refine ⟨?_, ?_, ?_⟩
  · intro hty
    simp only at hty
    subst hty
    constructor
    · rintro (h | h) <;> simp only at h <;> subst h <;>
        simp [validate_coupon, hstart, hexp, husage, hmin]
    · intro mx hmx hmx0
      simp only at hmx
      subst hmx
      simp [validate_coupon, hstart, hexp, husage, hmin, hmx0]
  · intro hty
    simp only at hty
    subst hty
    constructor
    · simp [validate_coupon, hstart, hexp, husage, hmin]
    · simp [validate_coupon, hstart, hexp, husage, hmin, min_le_right]
  · intro h1 h2 h3
    simp only at h1 h2 h3
    simp [validate_coupon, hstart, hexp, husage, hmin, h1, h2, h3]

/-- A valid percentage coupon with a nonzero cap, a valid fixed-amount
coupon, and a coupon of unknown type, for the C3 witnesses. -/
def c3wPct : Coupon :=
  ⟨"P10", "percentage", 10, none, some 2, none, 0, true, none, none⟩

/-- Fixed-amount coupon for the C3 witness. -/
def c3wFix : Coupon :=
  ⟨"F30", "fixed_amount", 30, none, none, none, 0, true, none, none⟩

/-- Unknown-type coupon for the C3 witness. -/
def c3wBad : Coupon :=
  ⟨"BAD", "bogo", 1, none, none, none, 0, true, none, none⟩

/-- Witness for the amended C3 at the three concrete coupons: the spec
scenario 25.00 cart with a 10 percent coupon capped at 2.00 gives
discount 2.00; a 30.00 fixed-amount coupon on the same cart gives 25.00;
an unknown type is rejected. -/
theorem coupon_discount_by_type_witness :
    validate_coupon (some c3wPct) 25 0 =
      ⟨true, some (min (25 * 10 / 100 : ℚ) 2), "Coupon is valid"⟩ ∧
    validate_coupon (some c3wFix) 25 0 =
      ⟨true, some (min (30:ℚ) 25), "Coupon is valid"⟩ ∧
    validate_coupon (some c3wBad) 25 0 =
      ⟨false, none, "Invalid coupon type"⟩ :=
  ⟨((coupon_discount_by_type c3wPct 25 0 rfl rfl rfl rfl rfl).1 rfl).2
      2 rfl (by decide),
   ((coupon_discount_by_type c3wFix 25 0 rfl rfl rfl rfl rfl).2.1 rfl).1,
   (coupon_discount_by_type c3wBad 25 0 rfl rfl rfl rfl rfl).2.2
      (by decide) (by decide) (by decide)⟩

/-! ## Payment confirmation loop claims -/

/-- Sample address snapshot for concrete orders. -/
def sampleSnap : AddressSnapshot :=
  ⟨some "Ada", some "Moyo", none, "1 Main St", none, "Harare", "Harare",
   "0000", "Zimbabwe", none⟩

/-- A pending payment row. -/
def pay0 : Payment :=
  ⟨1, 1, "ecocash", some "Order#X", 25, "USD", "pending",
   some "poll-url-1", none, none, none⟩

/-- The order owning `pay0`, payment-pending. -/
def ord0 : Order :=
  ⟨1, 7, "ORD-20260101-ABCDEF12", "pending", "pending", 25, 0, 0, 0, 25,
   sampleSnap, sampleSnap, none⟩

/-- A pending payment with its pending order. -/
def payState0 : PayState := ⟨pay0, ord0⟩

/-- Ten polls that all report the non-terminal sent status. -/
def pollsAllSent : List PollOutcome :=
  List.replicate 10 (.response false "sent")

/-- If every poll reports sent, the background checker runs its whole
budget without a state change and ends in the timeout finaliser. -/
theorem loop_sent_background (now : ℤ) (s : PayState)
    (polls : List PollOutcome)
    (h : ∀ r ∈ polls, r = PollOutcome.response false "sent") :
    check_payment_status_background now s polls = finalizeTimeout s := by
  induction polls with
  | nil => rfl
  | cons r rest ih =>
    have hr := h r (by simp)
    subst hr
    have hps : pollStep now s (.response false "sent") = (s, false) := rfl
    simp only [check_payment_status_background, hps, if_false,
      Bool.false_eq_true]
    exact ih (fun x hx => h x (by simp [hx]))

/-- If every poll reports sent, the synchronous completion loop runs its
whole budget without a state change and ends in its timeout step. -/
theorem loop_sent_sync (now : ℤ) (s : PayState) (polls : List PollOutcome)
    (h : ∀ r ∈ polls, r = PollOutcome.response false "sent") :
    complete_payment_sync_poll now s polls =
      { payment := { s.payment with status := "timeout" },
        order := { s.order with payment_status := "timeout" } } := by
  induction polls with
  | nil => rfl
  | cons r rest ih =>
    have hr := h r (by simp)
    subst hr
    have hps : pollStep now s (.response false "sent") = (s, false) := rfl
    simp only [complete_payment_sync_poll, hps, if_false, Bool.false_eq_true]
    exact ih (fun x hx => h x (by simp [hx]))

/-- C4 counterexample: a pending payment polled ten times with only the
sent status ends with Payment.status timeout, but the background checker
leaves the owning Order at payment_status pending, not timeout, so the
order does not mirror the payment as claimed. -/
theorem payment_timeout_order_not_mirrored_cex :
    (check_payment_status_background 0 payState0 pollsAllSent).payment.status
      = "timeout" ∧
    (check_payment_status_background 0 payState0 pollsAllSent).order.payment_status
      = "pending" ∧
    ¬ ("pending" = "timeout") := by decide

/-- C4 (amended): when the attempt budget is exhausted with the gateway
reporting only sent, a pending payment transitions to timeout with no
completed or failed transition; the synchronous completion loop also sets
the owning order payment_status to timeout, while the background checker
leaves the order row untouched. -/
theorem payment_timeout_transition (now : ℤ) (s : PayState)
    (polls : List PollOutcome)
    (hpend : s.payment.status = "pending")
    (h : ∀ r ∈ polls, r = PollOutcome.response false "sent") :
    (check_payment_status_background now s polls).payment.status = "timeout" ∧
    (check_payment_status_background now s polls).order = s.order ∧
    (complete_payment_sync_poll now s polls).payment.status = "timeout" ∧
    (complete_payment_sync_poll now s polls).order.payment_status
      = "timeout" := by
  rw [loop_sent_background now s polls h, loop_sent_sync now s polls h]
  refine ⟨?_, ?_, rfl, rfl⟩ <;> simp [finalizeTimeout, hpend]

/-- Witness for the amended C4 at the concrete pending payment and the
ten all-sent polls. -/
theorem payment_timeout_transition_witness :
    (check_payment_status_background 0 payState0 pollsAllSent).payment.status
      = "timeout" ∧
    (check_payment_status_background 0 payState0 pollsAllSent).order
      = payState0.order ∧
    (complete_payment_sync_poll 0 payState0 pollsAllSent).payment.status
      = "timeout" ∧
    (complete_payment_sync_poll 0 payState0 pollsAllSent).order.payment_status
      = "timeout" :=
  payment_timeout_transition 0 payState0 pollsAllSent rfl
    (by intro r hr; simpa [pollsAllSent] using List.eq_of_mem_replicate hr)

/-- C9: the timeout finaliser never overwrites a completed or failed
payment; it changes the state only when the payment is still pending. -/
theorem timeout_finaliser_only_pending (s : PayState) :
    ((s.payment.status = "completed" ∨ s.payment.status = "failed") →
      finalizeTimeout s = s) ∧
    (finalizeTimeout s ≠ s → s.payment.status = "pending") := by
  constructor
  · rintro (h | h) <;> simp [finalizeTimeout, h]
  · intro h
    by_cases hp : s.payment.status = "pending"
    · exact hp
    · exact absurd (by simp [finalizeTimeout, hp]) h

/-- A completed payment with its order. -/
def payStateDone : PayState :=
  ⟨{ pay0 with status := "completed" }, ord0⟩

/-- Witness for C9: the finaliser leaves a concrete completed payment
untouched, and the concrete state it does change was pending. -/
theorem timeout_finaliser_only_pending_witness :
    finalizeTimeout payStateDone = payStateDone ∧
    payState0.payment.status = "pending" :=
  ⟨(timeout_finaliser_only_pending payStateDone).1 (Or.inl rfl),
   (timeout_finaliser_only_pending payState0).2 (by decide)⟩

/-- C8: whenever the payment method is not a mobile-money provider, the
currency is unsupported, the order is missing or not owned by the caller,
the order is already paid, or the order has no items, initiate_payment
rejects the request with the gateway never contacted and the database
(in particular every Payment row) unchanged. -/
theorem initiate_payment_rejects_without_gateway (σ : DB) (uid : ℕ)
    (req : PaynowPaymentRequest) (gw : GatewayBehavior)
    (h : ¬(req.payment_method = "ecocash" ∨ req.payment_method = "onemoney") ∨
      ¬(req.currency = "USD" ∨ req.currency = "ZWL") ∨
      σ.orders.find? (fun o => o.id == req.order_id && o.user_id == uid)
        = none ∨
      (∃ o, σ.orders.find? (fun o' => o'.id == req.order_id && o'.user_id == uid)
          = some o ∧ o.payment_status = "paid") ∨
      (∃ o, σ.orders.find? (fun o' => o'.id == req.order_id && o'.user_id == uid)
          = some o ∧ σ.order_items.filter (fun i => i.order_id == o.id) = [])) :
    (initiate_payment σ uid req gw).db = σ ∧
    (initiate_payment σ uid req gw).contacted = false ∧
    (initiate_payment σ uid req gw).isErr = true := by
  simp only [initiate_payment]
  repeat' split
  all_goals try exact ⟨rfl, rfl, rfl⟩
  all_goals exfalso
  all_goals simp_all
  all_goals tauto

/-- A request naming an unsupported payment method. -/
def c8req : PaynowPaymentRequest := ⟨1, "visa", "0771234567", "USD"⟩

/-- A store holding one unpaid order for user 7. -/
def c8db : DB := ⟨[], [], [ord0], [], [], [], 2, 1⟩

/-- Witness for C8: a card method is rejected with the store untouched
and the gateway never reached. -/
theorem initiate_payment_rejects_witness :
    (initiate_payment c8db 7 c8req .raises).db = c8db ∧
    (initiate_payment c8db 7 c8req .raises).contacted = false ∧
    (initiate_payment c8db 7 c8req .raises).isErr = true :=
  initiate_payment_rejects_without_gateway c8db 7 c8req .raises
    (Or.inl (by decide))

/-! ## Order assembly claims -/

/-- Database contents an order-creation outcome leaves behind. -/
def CreateOrderResult.db : CreateOrderResult → DB
  | .ok s _ => s
  | .err s _ => s

/-- Filtering for a user after removing that user leaves nothing. -/
theorem filter_not_filter (l : List CartItem) (uid : ℕ) :
    (l.filter (fun c => !(c.user_id == uid))).filter
      (fun c => c.user_id == uid) = [] := by
  induction l with
  | nil => rfl
  | cons a t ih =>
    by_cases h : (a.user_id == uid) = true <;>
      simp [List.filter_cons, h, ih]

/-- Address of user 7 for the sample checkouts. -/
def sampleAddress : Address :=
  ⟨1, 7, some "Ada", some "Moyo", none, "1 Main St", none, "Harare",
   "Harare", "0000", "Zimbabwe", none⟩

/-- A cart line of user 7: two units at price 10. -/
def sampleCartItem : CartItem :=
  ⟨11, 7, 3, none, 2, 10, ⟨3, "Lamp", "SKU1"⟩, none⟩

/-- A second cart line of user 7: one unit at price 5. -/
def sampleCartItem2 : CartItem :=
  ⟨12, 7, 4, none, 1, 5, ⟨4, "Chair", "SKU2"⟩, none⟩

/-- The sample store: the two cart lines and the address, nothing else. -/
def sampleDB : DB :=
  ⟨[sampleCartItem, sampleCartItem2], [sampleAddress], [], [], [], [], 1, 1⟩

/-- The sample checkout request: shipping address 1, no billing id, no
coupon. -/
def sampleReq : OrderCreate := ⟨1, none, "paynow", none, none⟩

/-- Sample utcnow date. -/
def sampleDate : UtcDate := ⟨2026, 10, 12⟩

/-- Sample uuid nibbles. -/
def sampleNib : List (Fin 16) := [10, 11, 0, 1, 2, 3, 14, 15, 4, 5]

/-- Oracle on which every persistence step succeeds. -/
def oracleOk : PersistOracle := ⟨true, true, true⟩

/-- Oracle on which only the post-commit reload SELECT fails. -/
def oracleReloadFail : PersistOracle := ⟨true, true, false⟩

/-- The database left behind by the sample checkout whose post-commit
reload fails. -/
def c1cexDB : DB :=
  (create_order sampleDB 7 sampleReq 0 sampleDate sampleNib oracleReloadFail).db

/-- C1 counterexample: when the reload SELECT after the commit raises,
create_order reports a failure (the generic internal error), yet the
order was created and the cart lines are gone — the claim says a failed
call leaves no order and the cart unchanged. -/
theorem create_order_reload_failure_cex :
    create_order sampleDB 7 sampleReq 0 sampleDate sampleNib oracleReloadFail
      = .err c1cexDB .internalError ∧
    sampleDB.cart_items ≠ [] ∧ c1cexDB.cart_items = [] ∧
    sampleDB.orders = [] ∧ c1cexDB.orders.length = 1 :=
  ⟨rfl, by decide, rfl, rfl, rfl⟩

/-- C1 (amended): on success the cart of the user is empty afterwards and
the order with its items is persisted, all in the one committed
transaction; on failure at validation, flush or commit the database is
exactly as before; a failure of the post-commit reload reports the
internal error although the order was committed and the cart cleared. -/
theorem create_order_atomicity (σ : DB) (uid : ℕ) (req : OrderCreate)
    (now : ℤ) (today : UtcDate) (nib : List (Fin 16))
    (oracle : PersistOracle) :
    (∀ σ' o, create_order σ uid req now today nib oracle = .ok σ' o →
      σ'.cart_items.filter (fun c => c.user_id == uid) = [] ∧
      o ∈ σ'.orders ∧
      σ'.order_items = σ.order_items ++
        (σ.cart_items.filter (fun c => c.user_id == uid)).map
          (mkOrderItem o.id)) ∧
    (∀ σ' e, create_order σ uid req now today nib oracle = .err σ' e →
      σ' = σ ∨
      (e = .internalError ∧ oracle.reloadOk = false ∧
        σ'.cart_items.filter (fun c => c.user_id == uid) = [] ∧
        σ'.orders.length = σ.orders.length + 1)) := by
  constructor
  · intro σ' o hok
    simp only [create_order] at hok
    repeat' split at hok
    all_goals cases hok
    all_goals refine ⟨filter_not_filter _ _, by simp, rfl⟩
  · intro σ' e herr
    simp only [create_order] at herr
    repeat' split at herr
    all_goals cases herr
    all_goals try exact Or.inl rfl
    all_goals refine Or.inr ⟨rfl, ?_, filter_not_filter _ _, by simp⟩
    all_goals simp_all

/-- Oracle on which the commit fails. -/
def oracleCommitFail : PersistOracle := ⟨true, false, true⟩

/-- The database left behind by the fully successful sample checkout. -/
def sampleOkDB : DB :=
  (create_order sampleDB 7 sampleReq 0 sampleDate sampleNib oracleOk).db

/-- The order returned by the fully successful sample checkout. -/
def sampleOkOrder : Order :=
  match create_order sampleDB 7 sampleReq 0 sampleDate sampleNib oracleOk with
  | .ok _ o => o
  | .err _ _ => default

/-- Witness for the amended C1: the successful sample checkout empties the
cart and persists the order and items, and a commit failure on the same
inputs leaves the store exactly as before. -/
theorem create_order_atomicity_witness :
    (sampleOkDB.cart_items.filter (fun c => c.user_id == 7) = [] ∧
     sampleOkOrder ∈ sampleOkDB.orders ∧
     sampleOkDB.order_items = sampleDB.order_items ++
       (sampleDB.cart_items.filter (fun c => c.user_id == 7)).map
         (mkOrderItem sampleOkOrder.id)) ∧
    (sampleDB = sampleDB ∨
      (CreateOrderError.internalError = .internalError ∧
        oracleCommitFail.reloadOk = false ∧
        sampleDB.cart_items.filter (fun c => c.user_id == 7) = [] ∧
        sampleDB.orders.length = sampleDB.orders.length + 1)) :=
  ⟨(create_order_atomicity sampleDB 7 sampleReq 0 sampleDate sampleNib
      oracleOk).1 sampleOkDB sampleOkOrder rfl,
   (create_order_atomicity sampleDB 7 sampleReq 0 sampleDate sampleNib
      oracleCommitFail).2 sampleDB .internalError rfl⟩

/-- C2: every successfully persisted order carries the exact rational
subtotal of its cart lines, zero tax and shipping, and a total equal to
subtotal plus tax plus shipping minus discount. -/
theorem create_order_totals (σ : DB) (uid : ℕ) (req : OrderCreate)
    (now : ℤ) (today : UtcDate) (nib : List (Fin 16))
    (oracle : PersistOracle) :
    ∀ σ' o, create_order σ uid req now today nib oracle = .ok σ' o →
      o.subtotal = ((σ.cart_items.filter (fun c => c.user_id == uid)).map
        (fun c => c.price * (c.quantity : ℚ))).sum ∧
      o.tax_amount = 0 ∧ o.shipping_cost = 0 ∧
      o.total_amount =
        o.subtotal + o.tax_amount + o.shipping_cost - o.discount_amount ∧
      o ∈ σ'.orders := by
  intro σ' o hok
  simp only [create_order] at hok
  repeat' split at hok
  all_goals cases hok
  all_goals exact ⟨rfl, rfl, rfl, rfl, by simp⟩

/-- Witness for C2: the sample checkout (two lines, 2 at 10 and 1 at 5)
carries subtotal 25 and total 25, matching the spec scenario. -/
theorem create_order_totals_witness :
    (sampleOkOrder.subtotal =
      ((sampleDB.cart_items.filter (fun c => c.user_id == 7)).map
        (fun c => c.price * (c.quantity : ℚ))).sum ∧
     sampleOkOrder.tax_amount = 0 ∧ sampleOkOrder.shipping_cost = 0 ∧
     sampleOkOrder.total_amount = sampleOkOrder.subtotal +
       sampleOkOrder.tax_amount + sampleOkOrder.shipping_cost -
       sampleOkOrder.discount_amount ∧
     sampleOkOrder ∈ sampleOkDB.orders) ∧
    sampleOkOrder.subtotal = 25 ∧ sampleOkOrder.total_amount = 25 :=
  ⟨create_order_totals sampleDB 7 sampleReq 0 sampleDate sampleNib oracleOk
      sampleOkDB sampleOkOrder rfl,
   by
     have h : sampleOkOrder.subtotal
         = (10:ℚ) * ((2:ℕ):ℚ) + ((5:ℚ) * ((1:ℕ):ℚ) + 0) := rfl
     rw [h]; norm_num,
   by
     have h : sampleOkOrder.total_amount
         = (10:ℚ) * ((2:ℕ):ℚ) + ((5:ℚ) * ((1:ℕ):ℚ) + 0) + 0 + 0 - 0 := rfl
     rw [h]; norm_num⟩

/-- Boolean matcher for the order-number pattern: the literal ORD-, eight
decimal digits, a hyphen, then eight characters that are uppercase
letters or digits. -/
def matchesOrderNumber (s : String) : Bool :=
  match s.data with
  | 'O' :: 'R' :: 'D' :: '-' :: rest =>
    ((rest.take 8).length == 8 &&
      (rest.take 8).all (fun c => c.isDigit)) &&
    (match rest.drop 8 with
     | '-' :: tok => tok.length == 8 && tok.all (fun c => c.isUpper || c.isDigit)
     | _ => false)
  | _ => false

/-- Each character emitted by the zero-padded date rendering is a digit. -/
theorem isDigit_digitChar (n : ℕ) : (digitChar n).isDigit = true := by
  unfold digitChar
  have h : n % 10 < 10 := Nat.mod_lt _ (by norm_num)
  set k := n % 10 with hk
  interval_cases k <;> decide

/-- Uppercasing any lowercase hex digit yields an uppercase letter or a
digit. -/
theorem hexUpper_ok (m : Fin 16) :
    ((hexChar m).toUpper.isUpper || (hexChar m).toUpper.isDigit) = true := by
  revert m; decide

/-- A string assembled from eight digits and an eight-character
upper-alphanumeric token matches the pattern. -/
theorem matchesOrderNumber_build (d8 tok : List Char)
    (h1 : d8.length = 8) (h2 : d8.all (fun c => c.isDigit) = true)
    (h3 : tok.length = 8)
    (h4 : tok.all (fun c => c.isUpper || c.isDigit) = true) :
    matchesOrderNumber ⟨'O' :: 'R' :: 'D' :: '-' :: (d8 ++ ('-' :: tok))⟩
      = true := by
  simp only [matchesOrderNumber]
  rw [← h1, List.take_left, List.drop_left]
  simp [h1, h2, h3, h4]

/-- The generated order number always matches the pattern, as soon as the
uuid provides at least eight nibbles. -/
theorem orderNumber_matches (today : UtcDate) (nib : List (Fin 16))
    (hnib : 8 ≤ nib.length) :
    matchesOrderNumber (orderNumber today nib) = true := by
  have hrw : orderNumber today nib =
      ⟨'O' :: 'R' :: 'D' :: '-' ::
        (dateStampChars today ++
          ('-' :: (uuidPrefix8 nib).map Char.toUpper))⟩ := rfl
  rw [hrw]
  refine matchesOrderNumber_build _ _ rfl ?_ ?_ ?_
  · simp [dateStampChars, pad4, pad2, isDigit_digitChar]
  · simp [uuidPrefix8, Nat.min_eq_left hnib]
  · have hall : ∀ c ∈ (uuidPrefix8 nib).map Char.toUpper,
        (c.isUpper || c.isDigit) = true := by
      intro c hc
      simp only [uuidPrefix8, List.map_map, List.mem_map] at hc
      obtain ⟨m, hm, rfl⟩ := hc
      exact hexUpper_ok m
    simpa [List.all_eq_true] using hall

/-- create_order preserves distinctness of the stored order numbers: the
flush INSERT fails on a collision with the unique order_number column, so
only a fresh number is ever appended. -/
theorem nodup_append_fresh (l : List Order) (o : Order)
    (h : (l.map (fun x => x.order_number)).Nodup)
    (hfresh : (l.any (fun x => x.order_number == o.order_number)) = false) :
    ((l ++ [o]).map (fun x => x.order_number)).Nodup := by
  have hnotin : o.order_number ∉ l.map (fun x => x.order_number) := by
    intro hmem
    obtain ⟨x, hx, hex⟩ := List.mem_map.1 hmem
    simp only [List.any_eq_false] at hfresh
    exact hfresh x hx (by simp [hex])
  rw [List.map_append, List.nodup_append_comm]
  simpa [List.nodup_cons, h] using hnotin

theorem create_order_preserves_nodup (σ : DB) (uid : ℕ) (req : OrderCreate)
    (now : ℤ) (today : UtcDate) (nib : List (Fin 16)) (oracle : PersistOracle)
    (h : (σ.orders.map (fun o => o.order_number)).Nodup) :
    (((create_order σ uid req now today nib oracle).db).orders.map
      (fun o => o.order_number)).Nodup := by
  cases hres : create_order σ uid req now today nib oracle with
  | ok σ' o =>
    simp only [CreateOrderResult.db]
    simp only [create_order] at hres
    repeat' split at hres
    all_goals cases hres
    all_goals refine nodup_append_fresh _ _ h ?_
    all_goals simp_all
  | err σ' e =>
    simp only [CreateOrderResult.db]
    simp only [create_order] at hres
    repeat' split at hres
    all_goals cases hres
    all_goals first
      | exact h
      | (refine nodup_append_fresh _ _ h ?_; simp_all)

/-- C7: every order number produced by create_order matches the pattern
ORD-, eight digits, hyphen, eight uppercase alphanumerics, and order
creation keeps order numbers unique across all stored orders. -/
theorem order_number_format_and_unique (σ : DB) (uid : ℕ) (req : OrderCreate)
    (now : ℤ) (today : UtcDate) (nib : List (Fin 16)) (oracle : PersistOracle)
    (hnib : 8 ≤ nib.length) :
    (∀ σ' o, create_order σ uid req now today nib oracle = .ok σ' o →
      matchesOrderNumber o.order_number = true) ∧
    ((σ.orders.map (fun o => o.order_number)).Nodup →
      (((create_order σ uid req now today nib oracle).db).orders.map
        (fun o => o.order_number)).Nodup) := by
  constructor
  · intro σ' o hok
    simp only [create_order] at hok
    repeat' split at hok
    all_goals cases hok
    all_goals exact orderNumber_matches today nib hnib
  · exact create_order_preserves_nodup σ uid req now today nib oracle

/-- Witness for C7: the sample checkout yields a pattern-conformant order
number and a store whose order numbers are distinct. -/
theorem order_number_format_and_unique_witness :
    matchesOrderNumber sampleOkOrder.order_number = true ∧
    ((sampleOkDB.orders.map (fun o => o.order_number)).Nodup) :=
  ⟨(order_number_format_and_unique sampleDB 7 sampleReq 0 sampleDate
      sampleNib oracleOk (by decide)).1 sampleOkDB sampleOkOrder rfl,
   (order_number_format_and_unique sampleDB 7 sampleReq 0 sampleDate
      sampleNib oracleOk (by decide)).2 (by decide)⟩

end HnhFix
